import Mathlib

/-!
# Failmail: verification of the message-coalescing pipeline

Shallow embedding of the failmail SMTP intermediary (v0.1/v0.2 top-level
wiring in `failmail.go`, plus the external collaborators the spec fixes:
maildir sink, message buffer, rate counter, upstream chain).

Conventions:
* Go strings are Lean `String`s; byte payloads are carried as `String`
  contents (their identity is all the claims need).
* Wall-clock instants are `Nat` (Unix seconds).
* Fallible Go `(value, error)` returns become `Except String _` or
  `_ × Option String`, matching the call-shape of the original.
* Channels consumed to exhaustion become lists of the values sent before
  close; the coordinator loop becomes a fold of a step function over the
  list of select events it services.
-/

namespace Failmail

/-- A received message, per the spec data model: envelope, raw bytes,
receive time, parsed headers (name → values, order preserved), subject. -/
structure ReceivedMessage where
  fromAddr : String
  toAddrs : List String
  data : String
  receivedAt : Nat
  headers : List (String × List String)
  subject : String
  deriving Repr, DecidableEq

/-- Modelled from the spec: the grouping functions of §4.1 (`Header`,
`SameSubject`, `MatchingSubject`, `ReplacedSubject`) are not under `src/`;
per the design notes they are tagged variants with a single key operation. -/
inductive GroupBy where
  | header (name dflt : String)
  | sameSubject
  | matchingSubject (pattern : String)
  | replacedSubject (pattern replacement : String)
  deriving Repr, DecidableEq

/-- The Go regexp engine is an external library; we abstract it as a pair of
functions: `findAll pat s` concatenates all matches of `pat` in `s`, and
`replaceAll pat repl s` replaces every match by `repl`. -/
structure RegexEngine where
  findAll : String → String → String
  replaceAll : String → String → String → String

/-- Case-insensitive header lookup, first value wins (spec §3: ParsedHeaders
has case-insensitive name lookup with value order preserved). -/
def headerLookup (headers : List (String × List String)) (name : String) :
    Option String :=
  match headers.find? (fun kv => kv.1.toLower = name.toLower) with
  | some (_, v :: _) => some v
  | _ => none

/-- Modelled from the spec: key extraction for each grouping variant
(§4.1): header value or default, trimmed subject, concatenated regex
matches, or subject with matches replaced. -/
def GroupBy.keyOf (re : RegexEngine) : GroupBy → ReceivedMessage → String
  | .header name dflt, m => (headerLookup m.headers name).getD dflt
  | .sameSubject, m => m.subject.trim
  | .matchingSubject pat, m => re.findAll pat m.subject
  | .replacedSubject pat repl, m => re.replaceAll pat repl m.subject

/-- `buildBatch` from `failmail.go`: pick the batch-key grouping function.
`batchMatch` wins, then `batchReplace` (with replacement `"*"`), then the
header fallback with default `""`. -/
def buildBatch (batchMatch batchReplace batchHeader : String) : GroupBy :=
  if batchMatch ≠ "" then
    .matchingSubject batchMatch
  else if batchReplace ≠ "" then
    .replacedSubject batchReplace "*"
  else
    .header batchHeader ""

/-- `buildGroup` from `failmail.go`: pick the group-key grouping function.
`groupMatch` wins, then `groupReplace` (with replacement `"*"`), then
same-subject grouping. -/
def buildGroup (groupMatch groupReplace : String) : GroupBy :=
  if groupMatch ≠ "" then
    .matchingSubject groupMatch
  else if groupReplace ≠ "" then
    .replacedSubject groupReplace "*"
  else
    .sameSubject

/-! ## Upstream chain -/

/-- Modelled from the spec: the upstream variants of §4.5 (`LiveUpstream`,
`DebugUpstream`, `MaildirUpstream`, `ExecUpstream`, `MultiUpstream`) are not
under `src/`; they are a composable sink with a single `Send` operation,
so we represent the chain as a tree whose leaves are the primitive sinks. -/
inductive Upstream where
  | debug
  | live (addr user pass : String)
  | maildirU (dir : String)
  | execU (command : String)
  | multi (a b : Upstream)
  deriving Repr, DecidableEq

/-- Modelled from the spec (§4.5): `MultiUpstream(a, b)` sends to `a`, then
`b`; if `a` fails, `b` is still attempted; the first error encountered is
returned. `leafSend` abstracts the I/O effect of each primitive sink.
Returns the leaves in the order the message is delivered to them, paired
with the overall result. -/
def sendTrace (leafSend : Upstream → Option String) :
    Upstream → List Upstream × Option String
  | .multi a b =>
    let ra := sendTrace leafSend a
    let rb := sendTrace leafSend b
    (ra.1 ++ rb.1, match ra.2 with | some e => some e | none => rb.2)
  | u => ([u], leafSend u)

/-- Wrapping step for the `relayCommand` option in `buildUpstream`:
`if relayCommand != "" { upstream = NewMultiUpstream(&ExecUpstream{...}, upstream) }`. -/
def wrapCommand (relayCommand : String) (u : Upstream) : Upstream :=
  if relayCommand ≠ "" then .multi (.execU relayCommand) u else u

/-- `buildUpstream` from `failmail.go`. The primary upstream is the debug
writer when `relayAddr = "debug"`, else the live SMTP relay. If `allDir` is
set, the all-mail maildir is created (`create` abstracts
`Maildir.Create`; `some e` is a creation error, returned together with the
not-yet-wrapped upstream, as in the Go early return) and a multi-upstream
is formed with the maildir first; if `relayCommand` is set, a
multi-upstream is formed with the command first. -/
def buildUpstream (create : String → Option String)
    (relayAddr relayUser relayPassword allDir relayCommand : String) :
    Upstream × Option String :=
  let upstream : Upstream :=
    if relayAddr = "debug" then .debug
    else .live relayAddr relayUser relayPassword
  if allDir ≠ "" then
    match create allDir with
    | some e => (upstream, some e)
    | none =>
      (wrapCommand relayCommand (.multi (.maildirU allDir) upstream), none)
  else
    (wrapCommand relayCommand upstream, none)

/-! ## Listener auth and TLS configuration -/

/-- The authenticator accepting exactly one credential pair (spec §4.6). -/
structure SingleUserPlainAuth where
  username : String
  password : String
  deriving Repr, DecidableEq

/-- Split a character list at the first colon: `some (before, after)` when a
colon occurs, `none` otherwise. This is the behaviour of Go
`strings.SplitN(s, ":", 2)` (which yields two parts exactly when a
separator occurs, splitting at the first one). -/
def splitFirstColon : List Char → Option (List Char × List Char)
  | [] => none
  | c :: rest =>
    if c = ':' then some ([], rest)
    else
      match splitFirstColon rest with
      | none => none
      | some p => some (c :: p.1, p.2)

/-- `buildAuth` from `failmail.go`: empty credentials mean no authenticator;
otherwise `strings.SplitN(credentials, ":", 2)` must yield two parts
(username before the first colon, password after it), else an error. -/
def buildAuth (credentials : String) :
    Except String (Option SingleUserPlainAuth) :=
  if credentials = "" then .ok none
  else
    match splitFirstColon credentials.data with
    | some p => .ok (some ⟨⟨p.1⟩, ⟨p.2⟩⟩)
    | none => .error "credentials must be in username:password format"

/-- A TLS server configuration holding the loaded certificates; the
certificate material itself is opaque to the claims, so it is a `String`
token produced by the loader. -/
structure TLSConfig where
  certificates : List String
  deriving Repr, DecidableEq

/-- `buildTLSConfig` from `failmail.go`: if either PEM path is empty, both
the config and the error are nil; otherwise `tls.LoadX509KeyPair`
(abstracted as `load`) is consulted, its error propagated, and its
certificate wrapped in a config. -/
def buildTLSConfig (load : String → String → Except String String)
    (certFile keyFile : String) : Except String (Option TLSConfig) :=
  if certFile = "" ∨ keyFile = "" then .ok none
  else
    match load certFile keyFile with
    | .error e => .error e
    | .ok cert => .ok (some ⟨[cert]⟩)

/-! ## Startup sequence of `main` -/

/-- Outcome of the startup phase of `main`: either a `log.Fatalf` (process
exit with the given message) or a running server with the listener's
authenticator and TLS configuration. -/
inductive StartupResult where
  | fatal (msg : String)
  | running (auth : Option SingleUserPlainAuth) (tls : Option TLSConfig)
  deriving Repr, DecidableEq

/-- The error-handling skeleton of `main` in `failmail.go` (identical in
v0.1 and v0.2): `buildAuth` errors are fatal; the result of
`buildTLSConfig` is assigned as `tlsConfig, err := ...` but `err` is never
examined, so a TLS loading error leaves `tlsConfig` nil and startup
continues; upstream construction errors and failure-maildir creation
errors are fatal. `upstreamErr`/`failDirErr` abstract those two fallible
steps. -/
def mainStartup (load : String → String → Except String String)
    (credentials certFile keyFile : String)
    (upstreamErr : Option String) (failDirErr : Option String) :
    StartupResult :=
  match buildAuth credentials with
  | .error e => .fatal ("failed to parse auth credentials: " ++ e)
  | .ok auth =>
    let tlsConfig : Option TLSConfig :=
      match buildTLSConfig load certFile keyFile with
      | .error _ => none
      | .ok t => t
    match upstreamErr with
    | some e => .fatal ("failed to create upstream: " ++ e)
    | none =>
      match failDirErr with
      | some e => .fatal ("failed to create maildir for failed messages: " ++ e)
      | none => .running auth tlsConfig

/-! ## Maildir sink -/

/-- Modelled from the spec (§9): the injectable naming environment
`{ Hostname() → (string, err), Now() → timestamp, Pid() → int }` that
unique-name generation reads; tests pin it to host `"test"`, pid `1000`,
time `1393650000`. -/
structure NamingEnv where
  hostname : Except String String
  now : Nat
  pid : Nat

/-- Modelled from the spec (§2, §6): the maildir sink, a name-plus-bytes →
file sink; `counter` is the per-process monotonic sequence number and
`cur` the entries of the `cur/` directory (filename paired with byte
content). The implementation is not under `src/`; this model follows §6's
maildir format and the maildir tests. -/
structure Maildir where
  path : String
  counter : Nat
  cur : List (String × String)
  deriving Repr, DecidableEq

/-- Modelled from the spec (§3, §6): `NextUniqueName` increments the
per-process sequence counter and produces
`<unix-seconds>.<pid>_<n>.<hostname>`; a hostname lookup failure is
returned as-is. -/
def Maildir.nextUniqueName (env : NamingEnv) (m : Maildir) :
    Except String (String × Maildir) :=
  match env.hostname with
  | .error e => .error e
  | .ok host =>
    let n := m.counter + 1
    .ok (toString env.now ++ "." ++ toString env.pid ++ "_" ++ toString n
          ++ "." ++ host,
         { m with counter := n })

/-- Modelled from the spec (§6): `Write` stores the bytes directly in
`cur/` under the next unique name with the `:2,S` suffix appended,
returning the filename; a naming failure is propagated and nothing is
stored. -/
def Maildir.write (env : NamingEnv) (m : Maildir) (bytes : String) :
    Except String (String × Maildir) :=
  match m.nextUniqueName env with
  | .error e => .error e
  | .ok (name, m1) =>
    let filename := name ++ ":2,S"
    .ok (filename, { m1 with cur := m1.cur ++ [(filename, bytes)] })

/-! ## Rate counter -/

/-- Modelled from the spec (§4.4): `buckets` of length `WindowSize` with the
head bucket active, and an alert `limit` (disabled when `limit == 0`). -/
structure RateCounter where
  limit : Int
  buckets : List Int
  deriving Repr, DecidableEq

/-- `NewRateCounter(limit, window)`: `window` zeroed buckets. -/
def NewRateCounter (limit : Int) (window : Nat) : RateCounter :=
  ⟨limit, List.replicate window 0⟩

/-- Modelled from the spec (§4.4): `Add(n)` adds `n` to the head bucket. -/
def RateCounter.add (rc : RateCounter) (n : Int) : RateCounter :=
  { rc with
    buckets := match rc.buckets with
      | [] => []
      | b :: rest => (b + n) :: rest }

/-- Modelled from the spec (§4.4): `CheckAndAdvance` totals the buckets,
reports whether a positive limit is exceeded, then shifts the window
(drop the tail bucket, prepend a fresh zero head). -/
def RateCounter.checkAndAdvance (rc : RateCounter) :
    Bool × Int × RateCounter :=
  let total := rc.buckets.sum
  (decide (0 < rc.limit ∧ rc.limit < total), total,
   { rc with buckets := 0 :: rc.buckets.dropLast })

/-! ## Message buffer -/

/-- Modelled from the spec (§3): a group of like messages within a summary:
group key, representative subject, first/last receive times, count, and
the member messages in arrival order. -/
structure Group where
  key : String
  subject : String
  first : Nat
  last : Nat
  count : Nat
  msgs : List ReceivedMessage
  deriving Repr, DecidableEq

/-- Modelled from the spec (§3): a summary-in-progress: batch key,
`Start = min first`, `LastUpdate = max last`, and the groups keyed by
group key (association list, insertion order preserved). -/
structure SummaryInProgress where
  batchKey : String
  start : Nat
  lastUpdate : Nat
  groups : List (String × Group)
  deriving Repr, DecidableEq

/-- Modelled from the spec (§4.2): the time-windowed buffer owned by the
coordinator: flush parameters, the two grouping functions, the summary
`From` address, and the summaries keyed by batch key. -/
structure MessageBuffer where
  waitPeriod : Nat
  maxWait : Nat
  batch : GroupBy
  group : GroupBy
  fromAddr : String
  summaries : List (String × SummaryInProgress)
  deriving Repr, DecidableEq

/-- `NewMessageBuffer` from the spec: empty buffer with the given
parameters. -/
def NewMessageBuffer (waitPeriod maxWait : Nat) (batch group : GroupBy)
    (fromAddr : String) : MessageBuffer :=
  ⟨waitPeriod, maxWait, batch, group, fromAddr, []⟩

/-- A fresh single-message group for message `m` under group key `g`. -/
def newGroup (g : String) (m : ReceivedMessage) : Group :=
  ⟨g, m.subject, m.receivedAt, m.receivedAt, 1, [m]⟩

/-- Modelled from the spec (§4.2 `Add`): fold `m` into an existing group,
updating `First`/`Last`/`Count` and appending `m` in arrival order. -/
def Group.addMsg (gr : Group) (m : ReceivedMessage) : Group :=
  { gr with
    first := min gr.first m.receivedAt
    last := max gr.last m.receivedAt
    count := gr.count + 1
    msgs := gr.msgs ++ [m] }

/-- Insert-or-update in an association list, preserving insertion order. -/
def updateAssoc {α : Type} (l : List (String × α)) (k : String)
    (init : α) (f : α → α) : List (String × α) :=
  match l with
  | [] => [(k, init)]
  | kv :: rest =>
    if kv.1 = k then (k, f kv.2) :: rest
    else kv :: updateAssoc rest k init f

/-- Modelled from the spec (§4.2): `Add(m)` computes the batch and group
keys and inserts `m` into `summaries[b].Groups[g]`, creating both as
needed, and updating `Start`/`LastUpdate` on the summary. -/
def MessageBuffer.add (re : RegexEngine) (buf : MessageBuffer)
    (m : ReceivedMessage) : MessageBuffer :=
  let b := buf.batch.keyOf re m
  let g := buf.group.keyOf re m
  { buf with
    summaries :=
      updateAssoc buf.summaries b
        ⟨b, m.receivedAt, m.receivedAt, [(g, newGroup g m)]⟩
        (fun s =>
          { s with
            start := min s.start m.receivedAt
            lastUpdate := max s.lastUpdate m.receivedAt
            groups := updateAssoc s.groups g (newGroup g m)
                        (fun gr => gr.addMsg m) }) }

/-- Modelled from the spec (§3 flush deadlines): a summary is due at `now`
iff it has been quiet for `WaitPeriod` or alive for `MaxWait`. -/
def MessageBuffer.due (buf : MessageBuffer) (now : Nat)
    (s : SummaryInProgress) : Bool :=
  buf.waitPeriod ≤ now - s.lastUpdate ∨ buf.maxWait ≤ now - s.start

/-- Modelled from the spec (§4.2): `Flush(force)` removes and returns every
summary that is due (or all of them, when forced), keeping the rest. -/
def MessageBuffer.flush (buf : MessageBuffer) (force : Bool) (now : Nat) :
    List SummaryInProgress × MessageBuffer :=
  ((buf.summaries.filter (fun kv => force || buf.due now kv.2)).map (·.2),
   { buf with
     summaries := buf.summaries.filter
       (fun kv => !(force || buf.due now kv.2)) })

/-! ## Coordinator event loop (`run`) -/

/-- The values carried by the `sending` channel: either a raw received
message (the `relayAll` pass-through; `*ReceivedMessage` satisfies the
outgoing-message interface) or the rendered summary for a flushed
summary-in-progress (`renderer.Render(summary)` in the v0.2 loop; the
renderer is injective tagging here, its body layout being irrelevant to
the claims). -/
inductive ChannelItem where
  | raw (m : ReceivedMessage)
  | summary (s : SummaryInProgress)
  deriving Repr, DecidableEq

/-- The shutdown/reload requests carried by the `done` channel (v0.2). -/
inductive TerminationRequest where
  | shutdown
  | reload
  deriving Repr, DecidableEq

/-- The observable state of one execution of `run`: the buffer and rate
counter it owns, the items enqueued on `sending` in order, whether
`sending` has been closed, whether a reload was requested, whether the
goroutine has panicked (send on closed channel or close of closed
channel), and the log lines emitted. -/
structure LoopState where
  buffer : MessageBuffer
  rate : RateCounter
  sent : List ChannelItem
  sendingClosed : Bool
  reloadRequested : Bool
  panicked : Bool
  logs : List String
  deriving Repr, DecidableEq

/-- A single `sending <- x`: Go panics when the channel is closed; a panic
kills the goroutine, so a panicked state absorbs all later effects. -/
def chanSend (s : LoopState) (x : ChannelItem) : LoopState :=
  if s.panicked then s
  else if s.sendingClosed then { s with panicked := true }
  else { s with sent := s.sent ++ [x] }

/-- Enqueue a list of items one by one (the `for _, summary := range`
loops feeding `sending`). -/
def chanSendAll (s : LoopState) (xs : List ChannelItem) : LoopState :=
  xs.foldl chanSend s

/-- `close(sending)`: Go panics when closing an already-closed channel. -/
def chanClose (s : LoopState) : LoopState :=
  if s.panicked then s
  else if s.sendingClosed then { s with panicked := true }
  else { s with sendingClosed := true }

/-- The four select inputs serviced by `run` (§4.7); `tick` and `done`
carry the wall clock the buffer's flush reads. -/
inductive Event where
  | tick (now : Nat)
  | rateCheckTick
  | received (m : ReceivedMessage)
  | done (req : TerminationRequest) (now : Nat)
  deriving Repr, DecidableEq

/-- One iteration of the `select` in `run` (v0.2 body; v0.1 differs only
in sending summaries unrendered). Note the `done` case: after draining
`Flush(true)` into `sending` and closing it, the Go code executes a bare
`break`, which terminates only the `select` statement — `run` has no
`return`, so the `for` loop continues into the next iteration. The step
function therefore leaves no "returned" mark, and a fold over later
events keeps processing them. -/
def runStep (re : RegexEngine) (relayAll : Bool) (s : LoopState) :
    Event → LoopState
  | .tick now =>
    if s.panicked then s
    else
      let fl := s.buffer.flush false now
      chanSendAll { s with buffer := fl.2 } (fl.1.map .summary)
  | .rateCheckTick =>
    if s.panicked then s
    else
      let r := s.rate.checkAndAdvance
      { s with
        rate := r.2.2
        logs := if r.1 then s.logs ++ ["rate limit check exceeded"]
                else s.logs }
  | .received m =>
    if s.panicked then s
    else
      let s1 := { s with buffer := s.buffer.add re m, rate := s.rate.add 1 }
      if relayAll then chanSend s1 (.raw m) else s1
  | .done req now =>
    if s.panicked then s
    else
      let s1 := if req = .reload then { s with reloadRequested := true }
                else s
      let s2 := { s1 with logs := s1.logs ++ ["cleaning up"] }
      let fl := s2.buffer.flush true now
      chanClose (chanSendAll { s2 with buffer := fl.2 } (fl.1.map .summary))

/-- The event loop of `run`: service the select events in arrival order. -/
def runLoop (re : RegexEngine) (relayAll : Bool) (s : LoopState)
    (events : List Event) : LoopState :=
  events.foldl (runStep re relayAll) s

/-! ## Concrete fixtures (pinned clock, host and pid, as in the tests) -/

/-- A regex engine instance for concrete executions (the grouping
configurations exercised below never consult it). -/
def trivialRegex : RegexEngine := ⟨fun _ s => s, fun _ _ s => s⟩

/-- The naming environment the maildir tests pin: host `test`, pid `1000`,
time `1393650000`. -/
def testEnv : NamingEnv := ⟨.ok "test", 1393650000, 1000⟩

/-- A freshly created maildir: counter at zero, `cur/` empty. -/
def testMaildir : Maildir := ⟨"maildir/test", 0, []⟩

/-- A first sample message, received at t = 0. -/
def msgA : ReceivedMessage :=
  ⟨"a@x", ["ops@y"], "From: a@x\r\nSubject: s\r\n\r\nbody", 0,
   [("Subject", ["s"])], "s"⟩

/-- A second sample message, received at t = 3. -/
def msgB : ReceivedMessage :=
  ⟨"a@x", ["ops@y"], "From: a@x\r\nSubject: s\r\n\r\nbody2", 3,
   [("Subject", ["s"])], "s"⟩

/-- An initial coordinator state over header-based batching and grouping,
before any event is serviced. -/
def loop0 : LoopState :=
  ⟨NewMessageBuffer 30 300 (.header "X-Failmail-Split" "")
      (.header "X-Failmail-Split" "") "failmail@example.com",
   NewRateCounter 0 5, [], false, false, false, []⟩

/-! ## Upstream pump (`sendUpstream`) -/

/-- The state threaded through the upstream pump: the failure maildir and
the log lines emitted. -/
structure PumpState where
  failed : Maildir
  logs : List String
  deriving Repr, DecidableEq

/-- `sendUpstream` from `failmail.go`: consume `sending` until it is closed
and drained (the list is the sequence of items received before close).
Per message, `upstream.Send` (abstracted as `send`, returning an error or
not) is attempted; on error the message's bytes (`msg.Contents()`,
abstracted as `contents`) are written to the failure maildir, and a
failing spool write is only logged. After the channel is exhausted,
"done sending" is logged and the pump returns. -/
def sendUpstream (send : ChannelItem → Option String)
    (contents : ChannelItem → String) (env : NamingEnv) :
    List ChannelItem → PumpState → PumpState
  | [], st => { st with logs := st.logs ++ ["done sending"] }
  | msg :: rest, st =>
    let st1 :=
      match send msg with
      | none => st
      | some e =>
        let st' := { st with logs := st.logs ++ ["couldn't send message: " ++ e] }
        match st'.failed.write env (contents msg) with
        | .error e2 =>
          { st' with logs := st'.logs ++ ["couldn't save message: " ++ e2] }
        | .ok r => { st' with failed := r.2 }
    sendUpstream send contents env rest st1

/-- An initial pump state: fresh failure maildir, no logs. -/
def pump0 : PumpState := ⟨⟨"maildir/failed", 0, []⟩, []⟩

end Failmail

namespace Failmail

/-- C4: grouping-function selection precedence, exactly as `buildBatch` and
`buildGroup` implement it: `batchMatch` > `batchReplace` > header fallback,
and `groupMatch` > `groupReplace` > `SameSubject`. -/
theorem buildBatch_buildGroup_precedence
    (bm br bh gm gr : String) :
    (bm ≠ "" → buildBatch bm br bh = .matchingSubject bm) ∧
    (bm = "" → br ≠ "" → buildBatch bm br bh = .replacedSubject br "*") ∧
    (bm = "" → br = "" → buildBatch bm br bh = .header bh "") ∧
    (gm ≠ "" → buildGroup gm gr = .matchingSubject gm) ∧
    (gm = "" → gr ≠ "" → buildGroup gm gr = .replacedSubject gr "*") ∧
    (gm = "" → gr = "" → buildGroup gm gr = .sameSubject) := by
  refine ⟨?_, ?_, ?_, ?_, ?_, ?_⟩ <;> intros <;>
    simp_all [buildBatch, buildGroup]

/-- Witness for C4 at concrete flag values. -/
theorem buildBatch_buildGroup_precedence_witness :
    buildBatch "job [0-9]+" "" "X-Failmail-Split" = .matchingSubject "job [0-9]+" ∧
    buildBatch "" "[0-9]+" "X-Failmail-Split" = .replacedSubject "[0-9]+" "*" ∧
    buildBatch "" "" "X-Failmail-Split" = .header "X-Failmail-Split" "" ∧
    buildGroup "" "" = .sameSubject :=
  ⟨(buildBatch_buildGroup_precedence "job [0-9]+" "" "X-Failmail-Split" "" "").1
      (by decide),
   (buildBatch_buildGroup_precedence "" "[0-9]+" "X-Failmail-Split" "" "").2.1
      rfl (by decide),
   (buildBatch_buildGroup_precedence "" "" "X-Failmail-Split" "" "").2.2.1
      rfl rfl,
   (buildBatch_buildGroup_precedence "" "" "" "" "").2.2.2.2.2 rfl rfl⟩

/-- C1: on a `done` request the coordinator does drain `Flush(true)` into
`sending` (rendered) and close the channel — but the event loop does not
return: the bare `break` in the Go `select` exits only the select, so a
subsequent event is still serviced (the buffer changes again) and its
`relayAll` pass-through send panics on the closed `sending` channel. This
theorem evaluates the loop at that failing event sequence. -/
theorem run_done_loop_continues :
    (runLoop trivialRegex true loop0
        [.received msgA, .done .shutdown 5]).sendingClosed = true ∧
    (runLoop trivialRegex true loop0
        [.received msgA, .done .shutdown 5]).buffer.summaries = [] ∧
    (runLoop trivialRegex true loop0
        [.received msgA, .done .shutdown 5]).sent.length = 2 ∧
    (runLoop trivialRegex true loop0
        [.received msgA, .done .shutdown 5]).panicked = false ∧
    (runLoop trivialRegex true loop0
        [.received msgA, .done .shutdown 5, .received msgB]).buffer ≠
      (runLoop trivialRegex true loop0
        [.received msgA, .done .shutdown 5]).buffer ∧
    (runLoop trivialRegex true loop0
        [.received msgA, .done .shutdown 5, .received msgB]).panicked =
      true := by
  decide

/-- C3: a TLS loading failure is not fatal at startup: `main` assigns
`tlsConfig, err := buildTLSConfig(...)` and never examines `err`, so with
an unreadable certificate/key pair (loader returns an error) startup
proceeds to `running` with a nil TLS config instead of exiting. -/
theorem mainStartup_ignores_tls_error :
    buildTLSConfig (fun _ _ => .error "open cert.pem: permission denied")
        "cert.pem" "key.pem" =
      .error "open cert.pem: permission denied" ∧
    mainStartup (fun _ _ => .error "open cert.pem: permission denied")
        "" "cert.pem" "key.pem" none none = .running none none := by
  constructor <;> rfl

/-- C6: servicing a `received` event calls `buffer.Add(m)` and
`rateCounter.Add(1)`; with `relayAll` set it additionally enqueues the raw
message on `sending` (one more entry), and without it the channel is left
untouched. -/
theorem run_received_adds_and_relays (re : RegexEngine) (relayAll : Bool)
    (s : LoopState) (m : ReceivedMessage)
    (hp : s.panicked = false) (hc : s.sendingClosed = false) :
    (runStep re relayAll s (.received m)).buffer = s.buffer.add re m ∧
    (runStep re relayAll s (.received m)).rate = s.rate.add 1 ∧
    (relayAll = true →
      (runStep re relayAll s (.received m)).sent = s.sent ++ [.raw m]) ∧
    (relayAll = false →
      (runStep re relayAll s (.received m)).sent = s.sent) := by
  cases relayAll <;> simp [runStep, chanSend, hp, hc]

/-- Witness for C6 at the initial state and a concrete message. -/
theorem run_received_adds_and_relays_witness :
    (runStep trivialRegex true loop0 (.received msgA)).buffer =
      loop0.buffer.add trivialRegex msgA ∧
    (runStep trivialRegex true loop0 (.received msgA)).rate =
      loop0.rate.add 1 ∧
    (runStep trivialRegex true loop0 (.received msgA)).sent =
      loop0.sent ++ [.raw msgA] :=
  ⟨(run_received_adds_and_relays trivialRegex true loop0 msgA rfl rfl).1,
   (run_received_adds_and_relays trivialRegex true loop0 msgA rfl rfl).2.1,
   (run_received_adds_and_relays trivialRegex true loop0 msgA rfl rfl).2.2.1
     rfl⟩

/-- C8: with the naming environment pinned to host `test`, pid `1000` and
time `1393650000`, two successive `NextUniqueName()` calls yield
`1393650000.1000_1.test` then `1393650000.1000_2.test`; `Write` stores the
bytes in `cur/` under that name with `:2,S` appended; and in general each
successful `NextUniqueName()` increments the sequence counter by one. -/
theorem maildir_unique_names_and_write :
    testMaildir.nextUniqueName testEnv =
      .ok ("1393650000.1000_1.test", { testMaildir with counter := 1 }) ∧
    Maildir.nextUniqueName testEnv { testMaildir with counter := 1 } =
      .ok ("1393650000.1000_2.test", { testMaildir with counter := 2 }) ∧
    testMaildir.write testEnv "test mail" =
      .ok ("1393650000.1000_1.test:2,S",
        { testMaildir with
          counter := 1
          cur := [("1393650000.1000_1.test:2,S", "test mail")] }) ∧
    (∀ (env : NamingEnv) (m m' : Maildir) (name : String),
      m.nextUniqueName env = .ok (name, m') →
      m'.counter = m.counter + 1) := by
  refine ⟨rfl, rfl, rfl, ?_⟩
  intro env m m' name h
  unfold Maildir.nextUniqueName at h
  cases henv : env.hostname with
  | error e => rw [henv] at h; exact absurd h (by simp)
  | ok host =>
    rw [henv] at h
    simp only [Except.ok.injEq, Prod.mk.injEq] at h
    rw [← h.2]

/-- Witness for C8: the general counter-increment clause applied to the
first concrete call. -/
theorem maildir_unique_names_and_write_witness :
    ∃ m' : Maildir,
      testMaildir.nextUniqueName testEnv =
        .ok ("1393650000.1000_1.test", m') ∧
      m'.counter = testMaildir.counter + 1 :=
  ⟨{ testMaildir with counter := 1 },
   maildir_unique_names_and_write.1,
   maildir_unique_names_and_write.2.2.2 testEnv testMaildir
     { testMaildir with counter := 1 } "1393650000.1000_1.test"
     maildir_unique_names_and_write.1⟩

/-- C9: if either PEM path is empty, `buildTLSConfig` returns a nil config
and a nil error, regardless of the loader: a lone `tls-cert`/`tls-key`
silently disables STARTTLS rather than raising a configuration error. -/
theorem buildTLSConfig_empty_disables
    (load : String → String → Except String String)
    (certFile keyFile : String) (h : certFile = "" ∨ keyFile = "") :
    buildTLSConfig load certFile keyFile = .ok none := by
  unfold buildTLSConfig
  rw [if_pos h]

/-- Witness for C9: only a key file supplied, loader failing; the result is
still a nil config with a nil error. -/
theorem buildTLSConfig_empty_disables_witness :
    buildTLSConfig (fun _ _ => .error "boom") "" "key.pem" = .ok none :=
  buildTLSConfig_empty_disables (fun _ _ => .error "boom") "" "key.pem"
    (Or.inl rfl)

/-- C10: if the hostname lookup of the naming environment fails,
`Maildir.Write` returns that very error and creates no entry. -/
theorem maildir_write_hostname_error (env : NamingEnv) (m : Maildir)
    (bytes e : String) (h : env.hostname = .error e) :
    m.write env bytes = .error e ∧
    ∀ (name : String) (m' : Maildir),
      m.write env bytes ≠ .ok (name, m') := by
  have hw : m.write env bytes = .error e := by
    unfold Maildir.write Maildir.nextUniqueName
    rw [h]
  refine ⟨hw, fun name m' hok => ?_⟩
  rw [hw] at hok
  exact absurd hok (by simp)

/-- Witness for C10 at a concrete failing environment. -/
theorem maildir_write_hostname_error_witness :
    Maildir.write ⟨.error "couldn't get hostname", 1393650000, 1000⟩
        testMaildir "test mail" =
      .error "couldn't get hostname" :=
  (maildir_write_hostname_error
    ⟨.error "couldn't get hostname", 1393650000, 1000⟩
    testMaildir "test mail" "couldn't get hostname" rfl).1

/-- C2 counterexample: with both `allDir` and `relayCommand` set, the chain
built by `buildUpstream` delivers to the external command first, not the
archive maildir first: the claimed order (archive → command → relay) does
not match the code. -/
theorem buildUpstream_archive_first_false :
    (sendTrace (fun _ => none)
        (buildUpstream (fun _ => none) "localhost:25" "" "" "archive"
          "runme").1).1 =
      [Upstream.execU "runme", Upstream.maildirU "archive",
       Upstream.live "localhost:25" "" ""] ∧
    (sendTrace (fun _ => none)
        (buildUpstream (fun _ => none) "localhost:25" "" "" "archive"
          "runme").1).1 ≠
      [Upstream.maildirU "archive", Upstream.execU "runme",
       Upstream.live "localhost:25" "" ""] := by
  constructor <;> decide

/-- C2 (amended): with `allDir` and `relayCommand` both set and the
all-mail maildir creatable, `buildUpstream` succeeds and its chain
delivers the message first to the external command, then to the all-mail
archive, and last to the primary relay (command → archive → relay). -/
theorem buildUpstream_command_archive_relay
    (create : String → Option String)
    (relayAddr relayUser relayPassword allDir relayCommand : String)
    (hall : allDir ≠ "") (hcmd : relayCommand ≠ "")
    (hcreate : create allDir = none) :
    (buildUpstream create relayAddr relayUser relayPassword allDir
        relayCommand).2 = none ∧
    ∀ leafSend : Upstream → Option String,
      (sendTrace leafSend
          (buildUpstream create relayAddr relayUser relayPassword allDir
            relayCommand).1).1 =
        [Upstream.execU relayCommand, Upstream.maildirU allDir,
         if relayAddr = "debug" then Upstream.debug
         else Upstream.live relayAddr relayUser relayPassword] := by
  constructor
  · simp [buildUpstream, wrapCommand, hall, hcmd, hcreate]
  · intro leafSend
    by_cases hd : relayAddr = "debug" <;>
      simp [buildUpstream, wrapCommand, hall, hcmd, hcreate, hd, sendTrace]

/-- Witness for C2's amended theorem at concrete configuration values. -/
theorem buildUpstream_command_archive_relay_witness :
    (buildUpstream (fun _ => none) "localhost:25" "" "" "archive"
        "runme").2 = none ∧
    (sendTrace (fun _ => some "smtp down")
        (buildUpstream (fun _ => none) "localhost:25" "" "" "archive"
          "runme").1).1 =
      [Upstream.execU "runme", Upstream.maildirU "archive",
       Upstream.live "localhost:25" "" ""] :=
  ⟨(buildUpstream_command_archive_relay (fun _ => none) "localhost:25" ""
      "" "archive" "runme" (by decide) (by decide) rfl).1,
   (buildUpstream_command_archive_relay (fun _ => none) "localhost:25" ""
      "" "archive" "runme" (by decide) (by decide) rfl).2
     (fun _ => some "smtp down")⟩

/-- Helper: `splitFirstColon` finds nothing when no colon occurs. -/
theorem splitFirstColon_not_mem (l : List Char) (h : ':' ∉ l) :
    splitFirstColon l = none := by
  induction l with
  | nil => rfl
  | cons c rest ih =>
    simp only [List.mem_cons, not_or] at h
    have hc : ¬(c = ':') := fun e => h.1 e.symm
    simp [splitFirstColon, hc, ih h.2]

/-- Helper: `splitFirstColon` splits at the first colon. -/
theorem splitFirstColon_append (u p : List Char) (h : ':' ∉ u) :
    splitFirstColon (u ++ ':' :: p) = some (u, p) := by
  induction u with
  | nil => simp [splitFirstColon]
  | cons c rest ih =>
    simp only [List.mem_cons, not_or] at h
    have hc : ¬(c = ':') := fun e => h.1 e.symm
    simp [splitFirstColon, hc, ih h.2]

/-- C7: `buildAuth` returns no authenticator and no error for empty
credentials; for credentials of the form `u:p` (no colon in `u`, so the
username is the text before the first colon and the password everything
after it) it returns that `SingleUserPlainAuth`; for non-empty credentials
without a colon it errors, and that error is fatal in `main`'s startup. -/
theorem buildAuth_spec :
    buildAuth "" = .ok none ∧
    (∀ u p : String, ':' ∉ u.data →
      buildAuth (u ++ ":" ++ p) = .ok (some ⟨u, p⟩)) ∧
    (∀ s : String, s ≠ "" → ':' ∉ s.data →
      buildAuth s =
        .error "credentials must be in username:password format") ∧
    (∀ s : String, s ≠ "" → ':' ∉ s.data →
      ∀ (load : String → String → Except String String)
        (certFile keyFile : String) (upstreamErr failDirErr : Option String),
        mainStartup load s certFile keyFile upstreamErr failDirErr =
          .fatal ("failed to parse auth credentials: " ++
            "credentials must be in username:password format")) := by
  have h3 : ∀ s : String, s ≠ "" → ':' ∉ s.data →
      buildAuth s =
        .error "credentials must be in username:password format" := by
    intro s hne hnc
    unfold buildAuth
    rw [if_neg hne, splitFirstColon_not_mem s.data hnc]
  refine ⟨rfl, ?_, h3, ?_⟩
  · intro u p h
    have hdata : (u ++ ":" ++ p).data = u.data ++ ':' :: p.data := by
      simp [String.data_append]
    have hne : u ++ ":" ++ p ≠ "" := by
      intro he
      have hd : (u ++ ":" ++ p).data = [] := by rw [he]
      rw [hdata] at hd
      simp at hd
    unfold buildAuth
    rw [if_neg hne, hdata, splitFirstColon_append u.data p.data h]
  · intro s hne hnc load certFile keyFile upstreamErr failDirErr
    unfold mainStartup
    rw [h3 s hne hnc]

/-- Witness for C7 at concrete credential strings. -/
theorem buildAuth_spec_witness :
    buildAuth ("user" ++ ":" ++ "pa:ss") =
      .ok (some ⟨"user", "pa:ss"⟩) ∧
    buildAuth "nopass" =
      .error "credentials must be in username:password format" ∧
    mainStartup (fun _ _ => .ok "cert") "nopass" "" "" none none =
      .fatal ("failed to parse auth credentials: " ++
        "credentials must be in username:password format") :=
  ⟨buildAuth_spec.2.1 "user" "pa:ss" (by decide),
   buildAuth_spec.2.2.1 "nopass" (by decide) (by decide),
   buildAuth_spec.2.2.2 "nopass" (by decide) (by decide)
     (fun _ _ => .ok "cert") "" "" none none⟩

/-- Helper: a maildir write under a healthy naming environment appends one
`cur/` entry holding the written bytes. -/
theorem maildir_write_ok (env : NamingEnv) (md : Maildir)
    (bytes host : String) (h : env.hostname = .ok host) :
    md.write env bytes =
      .ok (toString env.now ++ "." ++ toString env.pid ++ "_"
            ++ toString (md.counter + 1) ++ "." ++ host ++ ":2,S",
          { md with
            counter := md.counter + 1
            cur := md.cur ++ [(toString env.now ++ "." ++ toString env.pid
              ++ "_" ++ toString (md.counter + 1) ++ "." ++ host ++ ":2,S",
              bytes)] }) := by
  unfold Maildir.write Maildir.nextUniqueName
  rw [h]

/-- Helper: a maildir write under a failing hostname lookup errors out. -/
theorem maildir_write_err (env : NamingEnv) (md : Maildir)
    (bytes e : String) (h : env.hostname = .error e) :
    md.write env bytes = .error e := by
  unfold Maildir.write Maildir.nextUniqueName
  rw [h]

/-- Helper: the pump always drains its channel and logs "done sending". -/
theorem sendUpstream_logs_done (send : ChannelItem → Option String)
    (contents : ChannelItem → String) (env : NamingEnv) :
    ∀ (msgs : List ChannelItem) (st : PumpState),
      (sendUpstream send contents env msgs st).logs.getLast? =
        some "done sending" := by
  intro msgs
  induction msgs with
  | nil =>
    intro st
    simp [sendUpstream, List.getLast?_append_cons]
  | cons m msgs ih =>
    intro st
    simp only [sendUpstream]
    exact ih _

/-- Helper: with a healthy naming environment, the failure maildir ends up
holding exactly the bytes of the messages whose send failed, in order. -/
theorem sendUpstream_cur_append (send : ChannelItem → Option String)
    (contents : ChannelItem → String) (env : NamingEnv) (host : String)
    (hok : env.hostname = .ok host) :
    ∀ (msgs : List ChannelItem) (st : PumpState),
      (sendUpstream send contents env msgs st).failed.cur.map (·.2) =
        st.failed.cur.map (·.2) ++
          (msgs.filter (fun m => (send m).isSome)).map contents := by
  intro msgs
  induction msgs with
  | nil => intro st; simp [sendUpstream]
  | cons m msgs ih =>
    intro st
    simp only [sendUpstream]
    cases hsend : send m with
    | none => simp [hsend, ih]
    | some e =>
      rw [maildir_write_ok env _ (contents m) host hok]
      simp [hsend, ih]

/-- Helper: a failing spool write (hostname error) is only logged; the
failure maildir is untouched and the pump still drains the channel. -/
theorem sendUpstream_failed_unchanged (send : ChannelItem → Option String)
    (contents : ChannelItem → String) (env : NamingEnv) (e : String)
    (herr : env.hostname = .error e) :
    ∀ (msgs : List ChannelItem) (st : PumpState),
      (sendUpstream send contents env msgs st).failed = st.failed := by
  intro msgs
  induction msgs with
  | nil => intro st; simp [sendUpstream]
  | cons m msgs ih =>
    intro st
    simp only [sendUpstream]
    cases hsend : send m with
    | none => simp [hsend, ih]
    | some err =>
      rw [maildir_write_err env _ (contents m) e herr]
      simp [hsend, ih]

/-- C5: the pump writes the bytes of every message whose `Send` failed to
the failure maildir (and of no other message), a failing spool write is
only logged and never re-raised (the maildir stays untouched and the pump
continues), and the pump processes every queued message, exiting (with the
final "done sending" log) exactly when the closed channel is drained. -/
theorem sendUpstream_spool_and_continue
    (send : ChannelItem → Option String) (contents : ChannelItem → String)
    (env : NamingEnv) (msgs : List ChannelItem) (st : PumpState) :
    ((sendUpstream send contents env msgs st).logs.getLast? =
      some "done sending") ∧
    (∀ host : String, env.hostname = .ok host →
      (sendUpstream send contents env msgs st).failed.cur.map (·.2) =
        st.failed.cur.map (·.2) ++
          (msgs.filter (fun m => (send m).isSome)).map contents) ∧
    (∀ e : String, env.hostname = .error e →
      (sendUpstream send contents env msgs st).failed = st.failed) :=
  ⟨sendUpstream_logs_done send contents env msgs st,
   fun host hok =>
     sendUpstream_cur_append send contents env host hok msgs st,
   fun e herr =>
     sendUpstream_failed_unchanged send contents env e herr msgs st⟩

/-- Witness for C5: one message whose send fails; its bytes land in the
failure maildir and the pump finishes. -/
theorem sendUpstream_spool_and_continue_witness :
    (sendUpstream (fun _ => some "connection refused") (fun _ => "bytes")
        testEnv [.raw msgA] pump0).logs.getLast? = some "done sending" ∧
    (sendUpstream (fun _ => some "connection refused") (fun _ => "bytes")
        testEnv [.raw msgA] pump0).failed.cur.map (·.2) = ["bytes"] :=
  ⟨(sendUpstream_spool_and_continue (fun _ => some "connection refused")
      (fun _ => "bytes") testEnv [.raw msgA] pump0).1,
   (sendUpstream_spool_and_continue (fun _ => some "connection refused")
      (fun _ => "bytes") testEnv [.raw msgA] pump0).2.1 "test" rfl⟩

end Failmail
